import Mathlib

/-!
Verification of `week1/scraper.py`: a single-page web scraper exposing
`fetch_website_contents`, `fetch_website_links` and a combined `WebsiteFetcher`
class that fetches once and extracts both content and links.

The HTML document is embedded as a tree of element and text nodes (the parsed
BeautifulSoup tree).  The network is abstracted by a `GetOutcome` value: what a
single `requests.get` call did (returned a response with a status code and a
parsed body, or raised one of the `requests` exception classes).  Python
exceptions are modelled with `Except`: a function that can raise returns
`Except PyExn α`, and an `except` chain is a match on the error value using the
class-membership predicates of the real `requests` exception hierarchy
(notably, `ConnectTimeout` is a subclass of both `ConnectionError` and
`Timeout`, and `ReadTimeout` of `Timeout` only).
-/

/-! ## The parsed document tree -/

mutual
inductive Node where
  | elem (tag : String) (attrs : List (String × String)) (children : NodeList)
  | text (s : String)
inductive NodeList where
  | nil
  | cons (n : Node) (ns : NodeList)
end

/-- Build a `NodeList` from a plain list (literal convenience only). -/
def nlist : List Node → NodeList
  | [] => NodeList.nil
  | n :: rest => NodeList.cons n (nlist rest)

/-! ## BeautifulSoup primitives used by the scraper -/

mutual
/-- All elements with the given tag inside a node (the node itself included),
in document order: `soup.find_all(tag)` restricted to one subtree. -/
def findAllN (tag : String) : Node → List Node
  | Node.text _ => []
  | Node.elem t a cs => (if t = tag then [Node.elem t a cs] else []) ++ findAllL tag cs
/-- All elements with the given tag inside a forest, in document order:
`soup.find_all(tag)`. -/
def findAllL (tag : String) : NodeList → List Node
  | NodeList.nil => []
  | NodeList.cons n ns => findAllN tag n ++ findAllL tag ns
end

/-- First element with the given tag, in document order: `soup.find(tag)`,
which also backs the `soup.title` / `soup.body` accessors. -/
def find (tag : String) (doc : NodeList) : Option Node :=
  (findAllL tag doc).head?

mutual
/-- BeautifulSoup's `.string` accessor on a tag: if the tag has exactly one
child and it is a text node, that text; if the only child is a tag, its
`.string`; otherwise (zero or several children) `None`. -/
def dotStringN : Node → Option String
  | Node.text s => some s
  | Node.elem _ _ cs => dotStringL cs
def dotStringL : NodeList → Option String
  | NodeList.cons c NodeList.nil => dotStringN c
  | _ => none
end

/-- Attribute lookup `tag.get(name)`: the value of the first attribute with
that name, or `None`. -/
def getAttr (name : String) : Node → Option String
  | Node.text _ => none
  | Node.elem _ attrs _ => (attrs.find? (fun p => p.1 == name)).map (fun p => p.2)

/-- The tag list passed to `soup.body([...])` before `.decompose()`. -/
def irrelevantTags : List String := ["script", "style", "img", "input"]

mutual
/-- Decompose every descendant element whose tag is in `tags` (the root node
itself is kept): `for irrelevant in body([...]): irrelevant.decompose()`. -/
def cleanN (tags : List String) : Node → Node
  | Node.text s => Node.text s
  | Node.elem t a cs => Node.elem t a (cleanL tags cs)
def cleanL (tags : List String) : NodeList → NodeList
  | NodeList.nil => NodeList.nil
  | NodeList.cons (Node.text s) rest => NodeList.cons (Node.text s) (cleanL tags rest)
  | NodeList.cons (Node.elem t a cs) rest =>
      if t ∈ tags then cleanL tags rest
      else NodeList.cons (Node.elem t a (cleanL tags cs)) (cleanL tags rest)
end

mutual
/-- The strings of every text node below a node, in document order
(BeautifulSoup's `.strings`). -/
def stringsN : Node → List String
  | Node.text s => [s]
  | Node.elem _ _ cs => stringsL cs
def stringsL : NodeList → List String
  | NodeList.nil => []
  | NodeList.cons n ns => stringsN n ++ stringsL ns
end

/-- Python `str.strip()` whitespace test. -/
def isPySpace (c : Char) : Bool :=
  c == ' ' || c == '\t' || c == '\n' || c == '\r' || c == '\x0b' || c == '\x0c'

/-- Python `str.strip()`: drop leading and trailing whitespace. -/
def pyStrip (s : String) : String :=
  String.mk (((s.data.dropWhile isPySpace).reverse.dropWhile isPySpace).reverse)

/-- Join strings with a single newline separator. -/
def joinNL : List String → String
  | [] => ""
  | [s] => s
  | s :: rest => s ++ "\n" ++ joinNL rest

/-- BeautifulSoup's `get_text(separator="\n", strip=True)` on a tag: strip
each descendant text string, drop the ones that strip to empty, and join the
rest with the separator. -/
def getText (n : Node) : String :=
  joinNL (((stringsN n).map pyStrip).filter (fun s => s != ""))

/-- Python slice `s[:n]` on a string, `n` a Python int: for `n ≥ 0` the first
`n` characters, for `n < 0` everything but the last `-n` characters. -/
def pySlice (s : String) (n : Int) : String :=
  if 0 ≤ n then String.mk (s.data.take n.toNat)
  else String.mk (s.data.take (s.data.length - (-n).toNat))

/-- A raised Python exception, by its class. -/
inductive PyExn where
  | connectionError
  | connectTimeout
  | readTimeout
  | httpError (status : Nat)
  | otherRequestError
  | typeError
  | valueError
  | unexpectedError

/-! ## `urllib.parse.urljoin`

Standard relative-URL resolution (RFC 3986 section 5) as performed by
`urllib.parse.urljoin` for the URL shapes the scraper meets: absolute
references, scheme-relative (`//host/p`), path-absolute (`/p`), path-relative
(`p`), query-only (`?q`) and fragment-only (`#f`) references.  Dot-segment
normalization and scheme-case folding are not modelled.  `urlsplit` is
fallible, as in CPython: an authority containing `[` without `]` (or the
converse) raises `ValueError("Invalid IPv6 URL")`, so `urljoin` — and hence
link extraction — can raise on hrefs such as `//[`. -/

/-- Split a character list at the first occurrence of `c`; `none` if absent. -/
def splitOnceChar (c : Char) : List Char → List Char × Option (List Char)
  | [] => ([], none)
  | x :: xs =>
    if x == c then ([], some xs)
    else
      match splitOnceChar c xs with
      | (a, b) => (x :: a, b)

def isSchemeChar (c : Char) : Bool :=
  c.isAlphanum || c == '+' || c == '-' || c == '.'

/-- A valid URL scheme name: a letter followed by letters, digits, `+`, `-`, `.`. -/
def validScheme : List Char → Bool
  | [] => false
  | c :: rest => c.isAlpha && (c :: rest).all isSchemeChar

structure UrlParts where
  scheme : String
  netloc : String
  path : String
  query : String
  fragment : String

/-- Characters that end the authority component. -/
def notDelim (c : Char) : Bool := !(c == '/' || c == '?' || c == '#')

/-- Split a URL into scheme, authority, path, query and fragment.  CPython's
`urlsplit` raises `ValueError("Invalid IPv6 URL")` when the authority
contains `[` without `]` or `]` without `[`. -/
def urlsplit (s : String) : Except PyExn UrlParts :=
  let pf :=
    match splitOnceChar '#' s.data with
    | (a, some f) => (a, f)
    | (a, none) => (a, [])
  let sr :=
    match splitOnceChar ':' pf.1 with
    | (pre, some r) => if validScheme pre then (pre, r) else ([], pf.1)
    | (_, none) => ([], pf.1)
  let nr :=
    match sr.2 with
    | '/' :: '/' :: r => (r.takeWhile notDelim, r.dropWhile notDelim)
    | other => ([], other)
  let pq :=
    match splitOnceChar '?' nr.2 with
    | (p, some q) => (p, q)
    | (p, none) => (p, [])
  if nr.1.contains '[' != nr.1.contains ']' then Except.error PyExn.valueError
  else Except.ok
    ⟨String.mk sr.1, String.mk nr.1, String.mk pq.1, String.mk pq.2, String.mk pf.2⟩

/-- Reassemble URL components, omitting empty ones. -/
def urlunsplit (u : UrlParts) : String :=
  (if u.scheme = "" then "" else u.scheme ++ ":")
    ++ (if u.netloc = "" then "" else "//" ++ u.netloc)
    ++ u.path
    ++ (if u.query = "" then "" else "?" ++ u.query)
    ++ (if u.fragment = "" then "" else "#" ++ u.fragment)

/-- RFC 3986 path merge: a relative path is appended to the base path with its
last segment removed (or to `/` when the base has an authority but no path). -/
def mergeRelPath (bnetloc bpath rpath : String) : String :=
  if bnetloc ≠ "" ∧ bpath = "" then "/" ++ rpath
  else String.mk ((bpath.data.reverse.dropWhile (fun c => c != '/')).reverse) ++ rpath

/-- Resolution of two successfully split URLs. -/
def urljoinParts (b r : UrlParts) (url : String) : String :=
  if r.scheme ≠ "" ∧ r.scheme ≠ b.scheme then url
  else if r.netloc ≠ "" then
    urlunsplit ⟨b.scheme, r.netloc, r.path, r.query, r.fragment⟩
  else if r.path = "" ∧ r.query = "" then
    urlunsplit ⟨b.scheme, b.netloc, b.path, b.query, r.fragment⟩
  else if r.path = "" then
    urlunsplit ⟨b.scheme, b.netloc, b.path, r.query, r.fragment⟩
  else if r.path.data.head? = some '/' then
    urlunsplit ⟨b.scheme, b.netloc, r.path, r.query, r.fragment⟩
  else
    urlunsplit ⟨b.scheme, b.netloc, mergeRelPath b.netloc b.path r.path, r.query, r.fragment⟩

/-- `urllib.parse.urljoin(base, url)`: splits the base, then the reference
(either split can raise `ValueError`), then resolves. -/
def urljoin (base url : String) : Except PyExn String :=
  if base = "" then Except.ok url
  else if url = "" then Except.ok base
  else
    match urlsplit base with
    | Except.error e => Except.error e
    | Except.ok b =>
      match urlsplit url with
      | Except.error e => Except.error e
      | Except.ok r => Except.ok (urljoinParts b r url)

/-! ## The network environment and Python exceptions -/

/-- What one `requests.get(url, headers=headers, timeout=10)` call did: either
it returned a response (with its HTTP status code and the document that
`BeautifulSoup(response.content, "html.parser")` parses from its body), or it
raised one of the `requests` exception classes, or some non-`requests`
exception occurred. -/
inductive GetOutcome where
  | success (status : Nat) (doc : NodeList)
  | connectionError
  | connectTimeout
  | readTimeout
  | otherRequestError
  | unexpectedError

/-- Membership in `requests.exceptions.ConnectionError`: `ConnectTimeout`
subclasses `ConnectionError`. -/
def PyExn.isConnectionError : PyExn → Bool
  | PyExn.connectionError => true
  | PyExn.connectTimeout => true
  | _ => false

/-- Membership in `requests.exceptions.Timeout`: both `ConnectTimeout` and
`ReadTimeout` subclass `Timeout`. -/
def PyExn.isTimeout : PyExn → Bool
  | PyExn.connectTimeout => true
  | PyExn.readTimeout => true
  | _ => false

/-- Membership in `requests.exceptions.HTTPError`. -/
def PyExn.isHTTPError : PyExn → Bool
  | PyExn.httpError _ => true
  | _ => false

/-- Membership in `requests.exceptions.RequestException`, the base class of
every `requests` exception. -/
def PyExn.isRequestException : PyExn → Bool
  | PyExn.connectionError => true
  | PyExn.connectTimeout => true
  | PyExn.readTimeout => true
  | PyExn.httpError _ => true
  | PyExn.otherRequestError => true
  | _ => false

/-- `e.response.status_code` of an `HTTPError`. -/
def PyExn.statusCode : PyExn → Nat
  | PyExn.httpError st => st
  | _ => 0

/-- `requests.get` as seen from inside the `try` block. -/
def requestsGet : GetOutcome → Except PyExn (Nat × NodeList)
  | GetOutcome.success st doc => Except.ok (st, doc)
  | GetOutcome.connectionError => Except.error PyExn.connectionError
  | GetOutcome.connectTimeout => Except.error PyExn.connectTimeout
  | GetOutcome.readTimeout => Except.error PyExn.readTimeout
  | GetOutcome.otherRequestError => Except.error PyExn.otherRequestError
  | GetOutcome.unexpectedError => Except.error PyExn.unexpectedError

/-- `response.raise_for_status()`: raises `HTTPError` carrying the status for
4xx and 5xx status codes, and does nothing otherwise. -/
def raiseForStatus (status : Nat) : Except PyExn Unit :=
  if 400 ≤ status ∧ status < 600 then Except.error (PyExn.httpError status) else Except.ok ()

/-! ## `fetch_website_contents` -/

/-- Title extraction `soup.title.string if soup.title else "No title found"`:
`none` is Python `None` (a title element exists but its `.string` is `None`),
which makes the later `title + "\n\n"` concatenation raise `TypeError`. -/
def titleString (doc : NodeList) : Option String :=
  match find "title" doc with
  | none => some "No title found"
  | some t => dotStringN t

/-- Body text of `fetch_website_contents`: decompose script/style/img/input in
place on the freshly parsed body, then `get_text(separator="\n", strip=True)`;
empty when the document has no body element. -/
def bodyTextInPlace (doc : NodeList) : String :=
  match find "body" doc with
  | some b => getText (cleanN irrelevantTags b)
  | none => ""

/-- The `try` block of `fetch_website_contents`. -/
def contentsBody (oc : GetOutcome) : Except PyExn String :=
  match requestsGet oc with
  | Except.error e => Except.error e
  | Except.ok (status, doc) =>
    match raiseForStatus status with
    | Except.error e => Except.error e
    | Except.ok _ =>
      let text := bodyTextInPlace doc
      match titleString doc with
      | none => Except.error PyExn.typeError
      | some ti => Except.ok (pySlice (ti ++ "\n\n" ++ text) 2000)

/-- The `except` chain of `fetch_website_contents`, in source order:
`ConnectionError`, then `Timeout`, then `HTTPError`, then `RequestException`,
then `Exception`.  The first clause whose class contains the exception wins. -/
def contentsSentinel (url : String) (e : PyExn) : String :=
  if e.isConnectionError then "[Error: Could not connect to " ++ url ++ "]"
  else if e.isTimeout then "[Error: Timeout for " ++ url ++ "]"
  else if e.isHTTPError then "[Error: HTTP " ++ Nat.repr e.statusCode ++ " for " ++ url ++ "]"
  else if e.isRequestException then "[Error: Could not fetch " ++ url ++ "]"
  else "[Error: Unexpected error for " ++ url ++ "]"

/-- `fetch_website_contents(url)` given what the single `requests.get` did. -/
def fetch_website_contents (url : String) (oc : GetOutcome) : String :=
  match contentsBody oc with
  | Except.ok s => s
  | Except.error e => contentsSentinel url e

/-! ## `fetch_website_links` -/

/-- The body of the link loop: anchors whose `href` is absent or empty
(`if href:`) are skipped; each kept href is resolved with
`urljoin(url, href)`, and the first `urljoin` that raises aborts the whole
loop with that exception (the links gathered so far are lost). -/
def resolveLinks (baseUrl : String) : List Node → Except PyExn (List String)
  | [] => Except.ok []
  | n :: rest =>
    match getAttr "href" n with
    | none => resolveLinks baseUrl rest
    | some href =>
      if href == "" then resolveLinks baseUrl rest
      else
        match urljoin baseUrl href with
        | Except.error e => Except.error e
        | Except.ok u =>
          match resolveLinks baseUrl rest with
          | Except.error e => Except.error e
          | Except.ok us => Except.ok (u :: us)

/-- The link loop shared by `fetch_website_links` and
`WebsiteFetcher.get_links`: every anchor in document order; skipped and kept
hrefs per `resolveLinks`; no de-duplication. -/
def extractLinks (baseUrl : String) (doc : NodeList) : Except PyExn (List String) :=
  resolveLinks baseUrl (findAllL "a" doc)

/-- The `try` block of `fetch_website_links`. -/
def linksBody (url : String) (oc : GetOutcome) : Except PyExn (List String) :=
  match requestsGet oc with
  | Except.error e => Except.error e
  | Except.ok (status, doc) =>
    match raiseForStatus status with
    | Except.error e => Except.error e
    | Except.ok _ => extractLinks url doc

/-- `fetch_website_links(url)`: both `except` clauses (`RequestException` and
`Exception`) return `[]`, so every raised exception maps to the empty list. -/
def fetch_website_links (url : String) (oc : GetOutcome) : List String :=
  match linksBody url oc with
  | Except.ok links => links
  | Except.error _ => []

/-! ## `WebsiteFetcher` -/

structure WebsiteFetcher where
  url : String
  soup : Option NodeList

/-- `WebsiteFetcher(url)`: `_fetch` runs once; its single `except` clause
catches only `RequestException` (setting `self.soup = None`), so any other
exception escapes the constructor. -/
def WebsiteFetcher.init (url : String) (oc : GetOutcome) : Except PyExn WebsiteFetcher :=
  match requestsGet oc with
  | Except.ok (status, doc) =>
    match raiseForStatus status with
    | Except.ok _ => Except.ok ⟨url, some doc⟩
    | Except.error e =>
      if e.isRequestException then Except.ok ⟨url, none⟩ else Except.error e
  | Except.error e =>
    if e.isRequestException then Except.ok ⟨url, none⟩ else Except.error e

/-- `get_contents` builds `BeautifulSoup(str(self.soup.body), "html.parser")`:
serializing the body subtree and reparsing it yields a fresh structurally
identical tree, modelled as a structural copy of the body node. -/
def copyNode (n : Node) : Node := n

/-- Body text of `get_contents`: the decompose loop runs on the reparsed copy
of the body, never on the shared `self.soup` tree. -/
def bodyTextCopy (doc : NodeList) : String :=
  match find "body" doc with
  | some b => getText (cleanN irrelevantTags (copyNode b))
  | none => ""

/-- `WebsiteFetcher.get_contents(max_length)` (default argument 2000).  The
method has no `try`/`except`, so the `TypeError` raised by `title + "\n\n"`
when the title's `.string` is `None` escapes; it is returned as
`Except.error`.  The second component is the instance state after the call:
`self.soup` and `self.url` are never reassigned. -/
def WebsiteFetcher.get_contents (f : WebsiteFetcher) (max_length : Int) :
    Except PyExn String × WebsiteFetcher :=
  match f.soup with
  | none => (Except.ok ("[Error: Could not fetch " ++ f.url ++ "]"), f)
  | some doc =>
    let title := titleString doc
    let text := bodyTextCopy doc
    match title with
    | none => (Except.error PyExn.typeError, f)
    | some ti => (Except.ok (pySlice (ti ++ "\n\n" ++ text) max_length), f)

/-- `WebsiteFetcher.get_links()`; the second component is the instance state
after the call.  The method has no `try`/`except`, so a `ValueError` raised
by `urljoin` on a malformed href escapes; it is returned as `Except.error`. -/
def WebsiteFetcher.get_links (f : WebsiteFetcher) :
    Except PyExn (List String) × WebsiteFetcher :=
  match f.soup with
  | none => (Except.ok [], f)
  | some doc => (extractLinks f.url doc, f)

/-- The body-text serialization read literally from the corresponding spec
sentence: visit the text nodes in document order, trim each one, and join them
all with a single newline — without dropping nodes whose text trims to empty.
Stated only to compare with the source's `getText`, which additionally drops
the strings that strip to empty. -/
def specLiteralText (n : Node) : String :=
  joinNL ((stringsN n).map pyStrip)

/-! ## Helper lemmas -/

/-- `get_contents` never reassigns `self.soup` or `self.url`: the decompose
loop runs on the reparsed copy only. -/
theorem get_contents_state (f : WebsiteFetcher) (ml : Int) : (f.get_contents ml).2 = f := by
  obtain ⟨url, soup⟩ := f
  cases soup with
  | none => rfl
  | some doc =>
    cases h : titleString doc with
    | none => simp [WebsiteFetcher.get_contents, h]
    | some ti => simp [WebsiteFetcher.get_contents, h]

/-- `get_links` never reassigns `self.soup` or `self.url`. -/
theorem get_links_state (f : WebsiteFetcher) : (f.get_links).2 = f := by
  obtain ⟨url, soup⟩ := f
  cases soup with
  | none => rfl
  | some doc => rfl

/-- A nonnegative Python slice bound caps the length of the result. -/
theorem pySlice_length_le (s : String) (ml : Int) (hml : 0 ≤ ml) :
    ((pySlice s ml).length : Int) ≤ ml := by
  unfold pySlice
  rw [if_pos hml]
  show ((s.data.take ml.toNat).length : Int) ≤ ml
  have h1 : (s.data.take ml.toNat).length ≤ ml.toNat := by
    rw [List.length_take]
    exact min_le_left _ _
  omega

/-- A string no longer than the (nonnegative) slice bound is returned whole,
with no padding. -/
theorem pySlice_of_le (s : String) (ml : Int) (h : (s.length : Int) ≤ ml) :
    pySlice s ml = s := by
  have h0 : 0 ≤ ml := by
    have hs : (0 : Int) ≤ (s.length : Int) := by omega
    omega
  unfold pySlice
  rw [if_pos h0]
  have hlen : s.data.length ≤ ml.toNat := by
    have h' : (s.data.length : Int) ≤ ml := h
    omega
  rw [List.take_of_length_le hlen]

/-- `4xx`/`5xx` statuses make `raise_for_status` raise `HTTPError` with that
status. -/
theorem raiseForStatus_error (st : Nat) (h4 : 400 ≤ st) (h6 : st < 600) :
    raiseForStatus st = Except.error (PyExn.httpError st) := by
  unfold raiseForStatus
  rw [if_pos ⟨h4, h6⟩]

/-- After the decompose loop, no element with a decomposed tag remains at any
depth of the forest. -/
theorem cleanL_removes (tags : List String) (t : String) (ht : t ∈ tags) :
    (ns : NodeList) → findAllL t (cleanL tags ns) = []
  | NodeList.nil => rfl
  | NodeList.cons (Node.text s) rest => by
      simpa [cleanL, findAllL, findAllN] using cleanL_removes tags t ht rest
  | NodeList.cons (Node.elem tg a cs) rest => by
      by_cases htg : tg ∈ tags
      · simpa [cleanL, htg] using cleanL_removes tags t ht rest
      · have hne : tg ≠ t := fun h => htg (h ▸ ht)
        simp [cleanL, htg, findAllL, findAllN, hne]
        exact ⟨cleanL_removes tags t ht cs, cleanL_removes tags t ht rest⟩

/-- The only exception `urlsplit` raises is `ValueError`. -/
theorem urlsplit_error (s : String) (e : PyExn) (h : urlsplit s = Except.error e) :
    e = PyExn.valueError := by
  simp only [urlsplit] at h
  split at h
  · exact (Except.error.inj h).symm
  · exact Except.noConfusion h

/-- The only exception `urljoin` raises is the `ValueError` from `urlsplit`. -/
theorem urljoin_error (base url : String) (e : PyExn)
    (h : urljoin base url = Except.error e) : e = PyExn.valueError := by
  unfold urljoin at h
  split at h
  · exact Except.noConfusion h
  · split at h
    · exact Except.noConfusion h
    · cases hsb : urlsplit base with
      | error e1 =>
        rw [hsb] at h
        have h2 : (Except.error e1 : Except PyExn String) = Except.error e := h
        rw [← Except.error.inj h2]
        exact urlsplit_error base e1 hsb
      | ok b =>
        rw [hsb] at h
        cases hsu : urlsplit url with
        | error e2 =>
          rw [hsu] at h
          have h2 : (Except.error e2 : Except PyExn String) = Except.error e := h
          rw [← Except.error.inj h2]
          exact urlsplit_error url e2 hsu
        | ok r =>
          rw [hsu] at h
          exact Except.noConfusion h

/-- The only exception the link-resolution loop raises is the `ValueError`
from `urljoin`. -/
theorem resolveLinks_error (base : String) (e : PyExn) :
    ∀ ns : List Node, resolveLinks base ns = Except.error e → e = PyExn.valueError := by
  intro ns
  induction ns with
  | nil => intro h; exact Except.noConfusion h
  | cons n rest ih =>
    intro h
    unfold resolveLinks at h
    cases hattr : getAttr "href" n with
    | none =>
      rw [hattr] at h
      exact ih h
    | some href =>
      simp only [hattr] at h
      by_cases hemp : (href == "") = true
      · rw [if_pos hemp] at h
        exact ih h
      · rw [if_neg hemp] at h
        cases hj : urljoin base href with
        | error e2 =>
          rw [hj] at h
          have h2 : (Except.error e2 : Except PyExn (List String)) = Except.error e := h
          rw [← Except.error.inj h2]
          exact urljoin_error base href e2 hj
        | ok u =>
          rw [hj] at h
          cases hr : resolveLinks base rest with
          | error e3 =>
            rw [hr] at h
            have h2 : (Except.error e3 : Except PyExn (List String)) = Except.error e := h
            exact ih (Except.error.inj h2 ▸ hr)
          | ok us =>
            rw [hr] at h
            exact Except.noConfusion h

/-! ## Concrete documents used by the claims -/

/-- Body of the spec's link-extraction test: anchors `/x`, `https://y.test`,
and one with no href. -/
def docC3 : NodeList := nlist [Node.elem "body" [] (nlist [
  Node.elem "a" [("href", "/x")] (nlist [Node.text "one"]),
  Node.elem "a" [("href", "https://y.test")] (nlist [Node.text "two"]),
  Node.elem "a" [] (nlist [Node.text "three"])])]

/-- Two anchors with the same href. -/
def docC3dup : NodeList := nlist [Node.elem "body" [] (nlist [
  Node.elem "a" [("href", "/x")] (nlist [Node.text "one"]),
  Node.elem "a" [("href", "/x")] (nlist [Node.text "two"])])]

/-- One anchor whose href attribute is the empty string. -/
def docC3empty : NodeList := nlist [Node.elem "body" [] (nlist [
  Node.elem "a" [("href", "")] (nlist [Node.text "one"])])]

/-- A title whose only child is text, and no body. -/
def docC2 : NodeList := nlist [Node.elem "title" [] (nlist [Node.text "T"])]

/-- A title and a one-paragraph body. -/
def docC2w : NodeList := nlist [Node.elem "title" [] (nlist [Node.text "T"]),
  Node.elem "body" [] (nlist [Node.text "hi"])]

def fetcherC2 : WebsiteFetcher := ⟨"u", some docC2⟩

def fetcherC2w : WebsiteFetcher := ⟨"u", some docC2w⟩

/-- An empty `<title></title>` (its `.string` is `None`) plus a body. -/
def docC4 : NodeList := nlist [Node.elem "title" [] NodeList.nil,
  Node.elem "body" [] (nlist [Node.text "hi"])]

/-- A page whose single anchor carries the malformed scheme-relative href
`//[` (an authority with an unbalanced bracket). -/
def docC4links : NodeList := nlist [Node.elem "body" [] (nlist [
  Node.elem "a" [("href", "//[")] (nlist [Node.text "bad"])])]

/-- An ordinary successful page. -/
def docC6 : NodeList := nlist [Node.elem "title" [] (nlist [Node.text "T"]),
  Node.elem "body" [] (nlist [Node.text "hi"])]

/-- The body of the C8 counterexample: a whitespace-only text node sits
between the two paragraphs. -/
def bodyC8 : Node := Node.elem "body" [] (nlist [
  Node.elem "p" [] (nlist [Node.text "a"]), Node.text " ",
  Node.elem "p" [] (nlist [Node.text "b"])])

def docC8 : NodeList := nlist [Node.elem "title" [] (nlist [Node.text "T"]), bodyC8]

/-- The spec's content-cleanliness test body. -/
def docC9 : NodeList := nlist [Node.elem "body" [] (nlist [
  Node.elem "p" [] (nlist [Node.text "hi"]),
  Node.elem "script" [] (nlist [Node.text "evil()"])])]

/-- A title with two children (`<title>a<b>c</b></title>` as parsed by
`html.parser`, which does not treat `title` as CDATA), plus a body. -/
def titleC10 : Node := Node.elem "title" [] (nlist [Node.text "a",
  Node.elem "b" [] (nlist [Node.text "c"])])

def docC10 : NodeList := nlist [titleC10, Node.elem "body" [] (nlist [Node.text "hi"])]

/-! ## The claims -/

/-- C1: on one `WebsiteFetcher` instance, calling `get_contents` then
`get_links` yields exactly the same pair of results (and the same final
instance state) as calling them in the opposite order: `get_contents`
decomposes nodes only on the reparsed copy of the body, never on the shared
`self.soup` tree, so `get_links` always sees every original anchor. -/
theorem claim_C1_extraction_order_irrelevant (f : WebsiteFetcher) (ml : Int) :
    ((f.get_contents ml).1, ((f.get_contents ml).2.get_links).1,
        ((f.get_contents ml).2.get_links).2)
      = (((f.get_links).2.get_contents ml).1, (f.get_links).1,
        ((f.get_links).2.get_contents ml).2) := by
  simp [get_contents_state, get_links_state]

/-- C2 counterexample: `max_length` is a Python int, and a negative argument
is a valid one; `s[:-1]` drops the last character, so on a document whose
title is `T` and that has no body, `get_contents(-1)` returns the two-character
string made of `T` and a newline, whose length is not `≤ -1`.  The claim's
universal length bound fails for negative `maxLength`. -/
theorem claim_C2_counterexample :
    (fetcherC2.get_contents (-1)).1 = Except.ok ("T" ++ "\n")
    ∧ ¬ ((("T" ++ "\n" : String).length : Int) ≤ -1) :=
  ⟨rfl, by decide⟩

/-- C2, amended to nonnegative `maxLength`: the extracted string is the plain
prefix cut of title + two newlines + body text, its length never exceeds
`maxLength`, a full string already within the bound is returned unmodified
with no padding, and `fetch_website_contents` applies the same cut at its
fixed bound 2000. -/
theorem claim_C2_amended (f : WebsiteFetcher) (doc : NodeList) (hdoc : f.soup = some doc)
    (ml : Int) (hml : 0 ≤ ml) (ti : String) (hti : titleString doc = some ti) :
    (f.get_contents ml).1 = Except.ok (pySlice (ti ++ "\n\n" ++ bodyTextCopy doc) ml)
    ∧ ((pySlice (ti ++ "\n\n" ++ bodyTextCopy doc) ml).length : Int) ≤ ml
    ∧ (∀ s : String, (s.length : Int) ≤ ml → pySlice s ml = s)
    ∧ fetch_website_contents f.url (GetOutcome.success 200 doc)
        = pySlice (ti ++ "\n\n" ++ bodyTextInPlace doc) 2000 := by
  obtain ⟨url, soup⟩ := f
  simp only at hdoc
  subst hdoc
  refine ⟨?_, ?_, ?_, ?_⟩
  · simp [WebsiteFetcher.get_contents, hti]
  · exact pySlice_length_le _ ml hml
  · intro s hs; exact pySlice_of_le s ml hs
  · simp only [fetch_website_contents, contentsBody, requestsGet]
    have h200 : raiseForStatus 200 = Except.ok () := rfl
    rw [h200, hti]

/-- C3: on a body whose anchors carry href `/x`, href `https://y.test`, and no
href, with base URL `https://site.test/page`, both `fetch_website_links` and
`WebsiteFetcher.get_links` return exactly the relative href resolved against
the base followed by the absolute href, in document order; the hrefless anchor
is skipped.  A duplicated href yields two entries, and an empty href is
skipped rather than contributing an empty entry. -/
theorem claim_C3_link_extraction :
    fetch_website_links "https://site.test/page" (GetOutcome.success 200 docC3)
        = ["https://site.test/x", "https://y.test"]
    ∧ ((⟨"https://site.test/page", some docC3⟩ : WebsiteFetcher).get_links).1
        = Except.ok ["https://site.test/x", "https://y.test"]
    ∧ fetch_website_links "https://site.test/page" (GetOutcome.success 200 docC3dup)
        = ["https://site.test/x", "https://site.test/x"]
    ∧ fetch_website_links "https://site.test/page" (GetOutcome.success 200 docC3empty) = [] :=
  ⟨rfl, rfl, rfl, rfl⟩

/-- C4 counterexample: neither `WebsiteFetcher` extraction method has a
handler.  On a successfully fetched document whose `<title></title>` has
`.string` `None`, the concatenation `title + "\n\n"` makes `get_contents`
raise `TypeError`; and on a page whose anchor href is the malformed `//[`,
`urljoin` makes `get_links` raise `ValueError("Invalid IPv6 URL")`.  Both
faults escape the module boundary (modelled as `Except.error`), so not every
failure is converted to a sentinel. -/
theorem claim_C4_counterexample :
    ((⟨"u", some docC4⟩ : WebsiteFetcher).get_contents 2000).1
        = Except.error PyExn.typeError
    ∧ ((⟨"https://site.test/page", some docC4links⟩ : WebsiteFetcher).get_links).1
        = Except.error PyExn.valueError :=
  ⟨rfl, rfl⟩

/-- C4, amended: the module-level functions convert every raised exception to
a sentinel (`fetch_website_contents` to its error string,
`fetch_website_links` to `[]`, its two `except` clauses covering both
`RequestException` and any other `Exception`, such as the `urljoin`
`ValueError`); but `WebsiteFetcher` has no catch-all: `get_contents` can
raise `TypeError` (exactly when the title's `.string` is `None`),
`get_links` can raise `ValueError` (exactly when `urljoin` rejects an href,
e.g. a malformed IPv6 authority), and the constructor propagates any
non-`RequestException` fault, since `_fetch` catches only
`RequestException`. -/
theorem claim_C4_amended (url : String) (oc : GetOutcome) :
    (∀ e, contentsBody oc = Except.error e →
        fetch_website_contents url oc = contentsSentinel url e)
    ∧ (∀ e, linksBody url oc = Except.error e → fetch_website_links url oc = [])
    ∧ (∀ (f : WebsiteFetcher) (ml : Int) (e : PyExn),
        (f.get_contents ml).1 = Except.error e → e = PyExn.typeError)
    ∧ (∀ (f : WebsiteFetcher) (e : PyExn),
        (f.get_links).1 = Except.error e → e = PyExn.valueError)
    ∧ (∀ e, WebsiteFetcher.init url oc = Except.error e → e = PyExn.unexpectedError) := by
  refine ⟨?_, ?_, ?_, ?_, ?_⟩
  · intro e h
    unfold fetch_website_contents
    rw [h]
  · intro e h
    unfold fetch_website_links
    rw [h]
  · intro f ml e h
    obtain ⟨u, soup⟩ := f
    cases soup with
    | none => simp [WebsiteFetcher.get_contents] at h
    | some doc =>
      cases hti : titleString doc with
      | none =>
        simp [WebsiteFetcher.get_contents, hti] at h
        exact h.symm
      | some ti => simp [WebsiteFetcher.get_contents, hti] at h
  · intro f e h
    obtain ⟨u, soup⟩ := f
    cases soup with
    | none => exact Except.noConfusion h
    | some doc => exact resolveLinks_error u e (findAllL "a" doc) h
  · intro e h
    cases oc with
    | success st doc =>
      by_cases hst : 400 ≤ st ∧ st < 600
      · have hrs : raiseForStatus st = Except.error (PyExn.httpError st) :=
          raiseForStatus_error st hst.1 hst.2
        simp only [WebsiteFetcher.init, requestsGet, hrs] at h
        simp [PyExn.isRequestException] at h
      · have hrs : raiseForStatus st = Except.ok () := by
          unfold raiseForStatus
          rw [if_neg hst]
        simp only [WebsiteFetcher.init, requestsGet, hrs] at h
        simp at h
    | connectionError => simp [WebsiteFetcher.init, requestsGet, PyExn.isRequestException] at h
    | connectTimeout => simp [WebsiteFetcher.init, requestsGet, PyExn.isRequestException] at h
    | readTimeout => simp [WebsiteFetcher.init, requestsGet, PyExn.isRequestException] at h
    | otherRequestError => simp [WebsiteFetcher.init, requestsGet, PyExn.isRequestException] at h
    | unexpectedError =>
      simp [WebsiteFetcher.init, requestsGet, PyExn.isRequestException] at h
      exact h.symm

theorem claim_C4_amended_witness :
    fetch_website_contents "u" GetOutcome.connectionError
      = contentsSentinel "u" PyExn.connectionError :=
  (claim_C4_amended "u" GetOutcome.connectionError).1 PyExn.connectionError rfl

/-- C5 counterexample: in `requests`, `ConnectTimeout` subclasses both
`ConnectionError` and `Timeout`, and the `except ConnectionError` clause comes
first in the source; a fetch that times out during connection establishment
(no response within the fixed 10-second timeout) is therefore classified as a
connection failure, not as the claim's Timeout sentinel. -/
theorem claim_C5_counterexample :
    fetch_website_contents "u" GetOutcome.connectTimeout = "[Error: Could not connect to u]"
    ∧ ("[Error: Could not connect to u]" : String) ≠ "[Error: Timeout for u]" :=
  ⟨rfl, by decide⟩

/-- C5, amended: a read timeout (`ReadTimeout`, a subclass of `Timeout` only)
yields the Timeout sentinel, while a connect timeout (`ConnectTimeout`, a
subclass of `ConnectionError` caught by the earlier clause) yields the
connection sentinel. -/
theorem claim_C5_amended (url : String) :
    fetch_website_contents url GetOutcome.readTimeout
        = "[Error: Timeout for " ++ url ++ "]"
    ∧ fetch_website_contents url GetOutcome.connectTimeout
        = "[Error: Could not connect to " ++ url ++ "]" :=
  ⟨rfl, rfl⟩

/-- C6 counterexample: `raise_for_status` raises only for statuses in
400..599.  A request that completes with the non-2xx status 304 (which
`requests` does not follow as a redirect) raises nothing, so
`fetch_website_contents` returns the extracted page content instead of the
claimed HTTP-status sentinel. -/
theorem claim_C6_counterexample :
    fetch_website_contents "u" (GetOutcome.success 304 docC6) = "T\n\nhi"
    ∧ ("T\n\nhi" : String) ≠ "[Error: HTTP 304 for u]" :=
  ⟨rfl, by decide⟩

/-- C6, amended to the 4xx/5xx range: every response whose status lies in
400..599 yields the sentinel carrying that exact numeric status. -/
theorem claim_C6_amended (url : String) (st : Nat) (h4 : 400 ≤ st) (h6 : st < 600)
    (doc : NodeList) :
    fetch_website_contents url (GetOutcome.success st doc)
      = "[Error: HTTP " ++ Nat.repr st ++ " for " ++ url ++ "]" := by
  have hrs := raiseForStatus_error st h4 h6
  simp only [fetch_website_contents, contentsBody, requestsGet, hrs]
  rfl

theorem claim_C6_amended_witness :
    fetch_website_contents "u" (GetOutcome.success 404 NodeList.nil)
      = "[Error: HTTP 404 for u]" :=
  (claim_C6_amended "u" 404 (by decide) (by decide) NodeList.nil).trans (by decide)

/-- C7: on a connection failure (unreachable host), no fault is thrown:
`fetch_website_contents` returns the connection sentinel,
`fetch_website_links` returns `[]`, construction of a `WebsiteFetcher` records
the failure once as an absent document (`soup = None`) instead of raising, and
on that state `get_contents` returns the could-not-fetch sentinel and
`get_links` returns `[]`, leaving the state unchanged (no repeated fetch: the
extraction methods take no network outcome at all). -/
theorem claim_C7_connection_failure (url : String) :
    fetch_website_contents url GetOutcome.connectionError
        = "[Error: Could not connect to " ++ url ++ "]"
    ∧ fetch_website_links url GetOutcome.connectionError = []
    ∧ WebsiteFetcher.init url GetOutcome.connectionError = Except.ok ⟨url, none⟩
    ∧ ((⟨url, none⟩ : WebsiteFetcher).get_contents 2000).1
        = Except.ok ("[Error: Could not fetch " ++ url ++ "]")
    ∧ (⟨url, none⟩ : WebsiteFetcher).get_links = (Except.ok [], ⟨url, none⟩) :=
  ⟨rfl, rfl, rfl, rfl, rfl⟩

/-- C8 counterexample: the serialization is not a plain "trim each text node
and join with one newline".  `get_text(strip=True)` also drops the strings
that strip to empty: on a body whose two paragraphs are separated by a
whitespace-only text node, the code yields the two letters joined by one
newline, while the literal trim-and-join serialization keeps an empty entry
and yields them joined by two. -/
theorem claim_C8_counterexample :
    ((⟨"u", some docC8⟩ : WebsiteFetcher).get_contents 2000).1
        = Except.ok ("T" ++ "\n\n" ++ ("a" ++ "\n" ++ "b"))
    ∧ specLiteralText (cleanN irrelevantTags bodyC8) = "a" ++ "\n" ++ "" ++ "\n" ++ "b"
    ∧ ("a" ++ "\n" ++ "" ++ "\n" ++ "b" : String) ≠ "a" ++ "\n" ++ "b" :=
  ⟨rfl, rfl, by decide⟩

/-- C8, amended: the title placeholder is the literal `No title found` when no
title element exists; a missing body gives empty body text; the body text is
obtained by trimming each remaining text node, dropping the nodes whose text
trims to empty, and joining the rest with single newlines; and the
pre-truncation output is exactly title, two newlines, body text. -/
theorem claim_C8_amended (doc : NodeList) :
    (find "title" doc = none → titleString doc = some "No title found")
    ∧ (find "body" doc = none → bodyTextCopy doc = "" ∧ bodyTextInPlace doc = "")
    ∧ (∀ b, find "body" doc = some b →
        bodyTextCopy doc
          = joinNL (((stringsN (cleanN irrelevantTags b)).map pyStrip).filter
              (fun s => s != "")))
    ∧ (∀ (f : WebsiteFetcher), f.soup = some doc → ∀ (ml : Int) (ti : String),
        titleString doc = some ti →
          (f.get_contents ml).1 = Except.ok (pySlice (ti ++ "\n\n" ++ bodyTextCopy doc) ml)) := by
  refine ⟨?_, ?_, ?_, ?_⟩
  · intro h
    unfold titleString
    rw [h]
  · intro h
    unfold bodyTextCopy bodyTextInPlace
    rw [h]
    exact ⟨rfl, rfl⟩
  · intro b hb
    unfold bodyTextCopy
    rw [hb]
    rfl
  · intro f hf ml ti hti
    obtain ⟨u, soup⟩ := f
    simp only at hf
    subst hf
    simp [WebsiteFetcher.get_contents, hti]

theorem claim_C8_amended_witness :
    titleString NodeList.nil = some "No title found" :=
  (claim_C8_amended NodeList.nil).1 rfl

/-- C9: the decompose loop removes every element whose tag is in the removed
set, at any depth, so no element with a removed tag survives and none of its
text can appear in the output; in particular, on the body
`<p>hi</p><script>evil()</script>` the extracted body text is exactly `hi`
with no trace of the script body. -/
theorem claim_C9_irrelevant_nodes_removed :
    (∀ (tags : List String) (t : String), t ∈ tags →
        ∀ ns : NodeList, findAllL t (cleanL tags ns) = [])
    ∧ bodyTextInPlace docC9 = "hi" := by
  refine ⟨?_, rfl⟩
  intro tags t ht ns
  exact cleanL_removes tags t ht ns

theorem claim_C9_witness :
    findAllL "script" (cleanL irrelevantTags
        (nlist [Node.elem "script" [] (nlist [Node.text "evil()"])])) = [] :=
  claim_C9_irrelevant_nodes_removed.1 irrelevantTags "script" (by decide) _

/-- C10: on a successfully fetched document whose title element holds more
than a single text node (`<title>a<b>c</b></title>` under `html.parser`), the
`.string` accessor yields `None`; `fetch_website_contents` then returns the
unexpected-error sentinel from its catch-all clause, while
`WebsiteFetcher.get_contents`, which has no handler, raises `TypeError` from
the `title + "\n\n"` concatenation. -/
theorem claim_C10_multinode_title :
    dotStringN titleC10 = none
    ∧ fetch_website_contents "u" (GetOutcome.success 200 docC10)
        = "[Error: Unexpected error for u]"
    ∧ ((⟨"u", some docC10⟩ : WebsiteFetcher).get_contents 2000).1
        = Except.error PyExn.typeError :=
  ⟨rfl, rfl, rfl⟩

theorem claim_C2_amended_witness :
    (fetcherC2w.get_contents 100).1
      = Except.ok (pySlice ("T" ++ "\n\n" ++ bodyTextCopy docC2w) 100) :=
  (claim_C2_amended fetcherC2w docC2w rfl 100 (by decide) "T" rfl).1
